import Mathlib

/-!
Shallow embedding of `deeprho/data_provider_parallel.py` and
`deeprho/test_provider.py` from the `deeprho_v2` repository.

Modelling conventions:
* Python floats are modelled by rationals in the operational model (every
  IEEE double is a rational number) and by real numbers in the analytic
  statements about the two rate-interpolation formulas; `np.sqrt` appears as
  an explicit function parameter `sqrtF`, instantiated with `Real.sqrt` in
  the analytic theorems (exact real arithmetic is the usual idealisation of
  float arithmetic for monotonicity/bound statements).
* Fallible code is modelled in `Except PyErr`; the error constructors mirror
  the Python exception classes the repository's own code can raise.
* The external `popgen` library (simulator, RENT+, distance computations)
  and `np.random` are opaque to this repository; they are modelled as
  oracle fields of `SimWorld`/`RunWorld`, quantified over in the theorems.
-/

namespace DeepRho

/-- Exception classes that the repository's own code (or the standard
library acting on its values, such as the pool constructor) can raise. -/
inductive PyErr where
  | assertionError (msg : String)
  | zeroDivisionError
  | keyError (key : String)
  | nameError (nm : String)
  | valueError (msg : String)
  deriving DecidableEq, Repr

/-- `recombination_rate_const_interpolation` (data_provider_parallel.py:54-56):
`(rmax-rmin) / (nsam-1)*i + rmin`, over any ordered field (instantiated at ℝ
in the analytic theorems and at ℚ in the operational model). -/
def recombination_rate_const_interpolation {K : Type} [LinearOrderedField K]
    (nsam i : ℕ) (rmin rmax : K) : K :=
  (rmax - rmin) / ((nsam : K) - 1) * i + rmin

/-- `recombination_rate_quadratic_interpolation` (data_provider_parallel.py:50-52):
`np.square((np.sqrt(rmax)-np.sqrt(rmin))/(nsam-1)*i + np.sqrt(rmin))`, with
`np.sqrt` passed as the parameter `sqrtF`. -/
def recombination_rate_quadratic_interpolation {K : Type} [LinearOrderedField K]
    (sqrtF : K → K) (nsam i : ℕ) (rmin rmax : K) : K :=
  ((sqrtF rmax - sqrtF rmin) / ((nsam : K) - 1) * i + sqrtF rmin) ^ 2

/-- Error-aware model of `recombination_rate_const_interpolation` as executed
by Python: `rmax-rmin` is a Python float and `nsam-1` a Python int, so the
division raises `ZeroDivisionError` when `nsam - 1 == 0`. -/
def recombination_rate_const_interpolation_checked (nsam : ℤ) (i : ℕ)
    (rmin rmax : ℚ) : Except PyErr ℚ :=
  if nsam - 1 = 0 then Except.error PyErr.zeroDivisionError
  else Except.ok ((rmax - rmin) / ((nsam : ℚ) - 1) * i + rmin)

/-- numpy float64 division by a Python int. `np.float64` division by zero does
not raise an exception: it emits a runtime warning and yields a non-finite
value (inf or nan), modelled here as `none`. -/
def npDiv (x : Option ℚ) (d : ℤ) : Option ℚ :=
  if d = 0 then none else x.map (fun v => v / (d : ℚ))

/-- numpy float64 multiplication by a Python int; a non-finite operand gives a
non-finite result (`inf * 0 = nan`). -/
def npMul (x : Option ℚ) (i : ℕ) : Option ℚ :=
  x.map (fun v => v * (i : ℚ))

/-- numpy float64 addition; a non-finite operand gives a non-finite result. -/
def npAdd (x y : Option ℚ) : Option ℚ :=
  match x, y with
  | some a, some b => some (a + b)
  | _, _ => none

/-- `np.square`; a non-finite operand gives a non-finite result. -/
def npSquare (x : Option ℚ) : Option ℚ :=
  x.map (fun v => v ^ 2)

/-- Error-aware model of `recombination_rate_quadratic_interpolation` as
executed by Python: `np.sqrt` returns `np.float64` (its float rounding is the
oracle `sqrtF`), so all the arithmetic is numpy scalar arithmetic, which
never raises — division by `nsam - 1 == 0` silently produces a non-finite
value that propagates to the result. -/
def recombination_rate_quadratic_interpolation_checked (sqrtF : ℚ → ℚ)
    (nsam : ℤ) (i : ℕ) (rmin rmax : ℚ) : Except PyErr (Option ℚ) :=
  Except.ok (npSquare (npAdd
    (npMul (npDiv (some (sqrtF rmax - sqrtF rmin)) (nsam - 1)) i)
    (some (sqrtF rmin))))

/-- The CLI argument record built by `gt_args` in data_provider_parallel.py. -/
structure Args where
  nsam : ℤ
  ndraw : ℤ
  npop : ℤ
  ne : ℚ
  ploidy : ℤ
  mutation_rate : ℚ
  demography : Option String
  rmin : ℚ
  rmax : ℚ
  num_thread : ℤ
  out : Option String
  verbose : Bool
  deriving DecidableEq, Repr

/-- Opaque stand-in for the demography object returned by the external
`popgen.utils.load_demography_from_file`; only its presence in the
configuration dict matters to this repository's code. -/
structure Demography where
  source : String
  deriving DecidableEq, Repr

/-- Stand-in for the external loader `popgen.utils.load_demography_from_file`. -/
def load_demography_from_file (path : String) : Demography := ⟨path⟩

/-- The `configuration` dict built by `build_configuration`
(data_provider_parallel.py:38-47); keys that may be absent are `Option`s. -/
structure Configuration where
  sequence_length : ℚ
  rate : ℚ
  ploidy : ℤ
  demography : Option Demography := none
  population_size : Option ℚ := none
  recombination_rate : Option ℚ := none
  deriving DecidableEq, Repr

/-- `build_configuration` (data_provider_parallel.py:38-47): stores a
`demography` entry when a demography file is given and a `population_size`
entry otherwise. -/
def build_configuration (a : Args) : Configuration :=
  match a.demography with
  | some d =>
      { sequence_length := 500000, rate := a.mutation_rate, ploidy := a.ploidy,
        demography := some (load_demography_from_file d) }
  | none =>
      { sequence_length := 500000, rate := a.mutation_rate, ploidy := a.ploidy,
        population_size := some a.ne }

/-- A Python `assert cond, msg`: raises `AssertionError(msg)` iff `cond` is
false. -/
def pyAssert (cond : Prop) [Decidable cond] (msg : String) : Except PyErr Unit :=
  if cond then Except.ok () else Except.error (PyErr.assertionError msg)

/-- `Pool.starmap(f, paras)` (and, equally, a Python list comprehension):
applies `f` to every element, returns the results in argument order; the
first exception raised propagates to the caller. -/
def starmap {α β : Type} (f : α → Except PyErr β) : List α → Except PyErr (List β)
  | [] => Except.ok []
  | x :: xs => do
      let y ← f x
      let ys ← starmap f xs
      return y :: ys

/-- The `paras` list comprehension (data_provider_parallel.py:108):
`[(configs.copy(), args, recombination_rate_const_interpolation(args.nsam, i,
args.rmin, args.rmax)) for i in range(args.nsam)]`.  `configs.copy()` is a
value copy, hence equal to `configs` here. -/
def mkParas (configs : Configuration) (a : Args) :
    Except PyErr (List (Configuration × Args × ℚ)) :=
  starmap (fun i => do
      let r ← recombination_rate_const_interpolation_checked a.nsam i a.rmin a.rmax
      return (configs, a, r))
    (List.range a.nsam.toNat)

/-- `Pool(processes)` (multiprocessing.dummy.Pool, i.e. ThreadPool, sharing
`multiprocessing.pool.Pool.__init__`): raises
`ValueError("Number of processes must be at least 1")` when the requested
process count is below 1, and otherwise allocates the pool, which is
effect-free in this model. -/
def poolCheck (processes : ℤ) : Except PyErr Unit :=
  if processes < 1 then
    Except.error (PyErr.valueError "Number of processes must be at least 1")
  else Except.ok ()

/-- The pre-delegation phase of `run` (data_provider_parallel.py:92-110): the
two entry assertions, the pool construction `Pool(args.num_thread // 2)`
(line 101; `//` is Python floor division, `Int.fdiv`), `build_configuration`,
and the construction of `paras`, stopping just before `pool.starmap` hands
work to `simulate` (which calls the external library).  Logging is
effect-free, and a demography load inside `build_configuration` is itself a
call into the external library, modelled as non-raising. -/
def runPreChecks (a : Args) : Except PyErr Unit := do
  pyAssert (a.out ≠ none) "no output name."
  pyAssert (a.rmin ≤ a.rmax) "r_max should be greater than r_min."
  poolCheck (Int.fdiv a.num_thread 2)
  let _ ← mkParas (build_configuration a) a
  return ()

/-- The CLI argument record built by `gt_args` in test_provider.py. -/
structure TPArgs where
  npop : ℤ
  ne : ℚ
  ploidy : ℤ
  mutation_rate : ℚ
  demography : Option String
  recombination_rate : Option ℚ
  sequence_length : ℚ
  rate_map : Option String
  num_thread : ℤ
  out : Option String
  verbose : Bool
  deriving DecidableEq, Repr

/-- The pre-delegation phase of `run` in test_provider.py (lines 186-193):
output-path assertion plus the existence assertions (bare `assert`, so the
`AssertionError` carries no message) for the optional demography and
rate-map files; everything after delegates to the external library. -/
def tp_run_pre_checks (pathExists : String → Bool) (a : TPArgs) :
    Except PyErr Unit := do
  pyAssert (a.out ≠ none) "no output name."
  match a.demography with
  | some p => pyAssert (pathExists p = true) ""
  | none => pure ()
  match a.rate_map with
  | some p => pyAssert (pathExists p = true) ""
  | none => pure ()

/-- The file system seen through `os.path.exists` / `open(..., 'wb')`:
a map from paths to the pickled value stored there. -/
def FileSys (α : Type) : Type := String → Option α

/-- Modelled from the spec: `sklearn.model_selection.train_test_split` is an
external library function (not part of this repository).  Per the spec the
split ratio is ~80/20: with `test_size=0.2` the test partition receives
`⌈0.2 · n⌉` rows and the train partition the remaining rows, returned as
`(x_train, x_test, y_train, y_test)`.  The random shuffle only permutes rows
and is abstracted away (rows are kept in order), which is faithful for all
row-count properties. -/
def train_test_split {X Y : Type} (x : List X) (y : List Y) :
    List X × List X × List Y × List Y :=
  let n := x.length
  let t := (n + 4) / 5
  (x.take (n - t), x.drop (n - t), y.take (n - t), y.drop (n - t))

/-- `save_training_data` (data_provider_parallel.py:58-66) as a state-passing
function on the file system: the two entry assertions, the split, the pickle
write of the 4-tuple `(x_train, x_test, y_train, y_test)`, and the final
`logging.info` line, which reads the module-global name `args`
(`argsGlobal`; reading it raises `NameError` when no such binding exists,
after the file has already been written).  The first `logging.info` line
reads only locals and cannot fail. -/
def save_training_data {X Y : Type} (argsGlobal : Option Args)
    (fs : FileSys (List X × List X × List Y × List Y)) (path : Option String)
    (data : List X × List Y) :
    FileSys (List X × List X × List Y × List Y) × Except PyErr Unit :=
  match path with
  | none => (fs, Except.error (PyErr.assertionError "no file provided."))
  | some p =>
    if (fs p).isSome then
      (fs, Except.error (PyErr.assertionError "file has already existed."))
    else
      let s := train_test_split data.1 data.2
      let fs' : FileSys (List X × List X × List Y × List Y) :=
        fun q => if q = p then some s else fs q
      match argsGlobal with
      | none => (fs', Except.error (PyErr.nameError "args"))
      | some _ => (fs', Except.ok ())

/-- Oracle for the external pipeline inside `simulate`
(data_provider_parallel.py:68-89).  `windows r` is the list of
(haplotype-window, inferred-genealogy) pairs that
`Simulator(configs)(npop, 1)` → `filter_replicate` → `cut_replicate` →
`rentplus` → `zip(haps, inferred_genealogies)` yields at recombination rate
`r`; `drawHap`/`drawGen`/`drawLen` give, for draw `j` of a window pair, the
haplotype matrix slice, the genealogy slice, and
`hap.positions[start+window_size] - hap.positions[start]` obtained with the
`np.random.choice` start (the randomness is folded into the oracle). -/
structure SimWorld (H G HS GS : Type) where
  windows : ℚ → List (H × G)
  drawHap : H × G → ℕ → HS
  drawGen : H × G → ℕ → GS
  drawLen : H × G → ℕ → ℚ

/-- The per-draw body computing `scaled_rho = 2 * configs['population_size']
* r * length` and appending it (data_provider_parallel.py:87-88): looking up
a missing `population_size` key raises `KeyError`. -/
def rho_loop (population_size : Option ℚ) (r : ℚ) :
    List ℚ → Except PyErr (List ℚ)
  | [] => Except.ok []
  | len :: rest =>
    match population_size with
    | none => Except.error (PyErr.keyError "population_size")
    | some ps => do
        let rs ← rho_loop population_size r rest
        return (2 * ps * r * len) :: rs

/-- `simulate` (data_provider_parallel.py:68-89): sets
`configs['recombination_rate'] = r`, then for every window pair and every
draw `j < ndraw` appends, in lockstep, a haplotype slice, a genealogy slice,
and the scaled rho (whose computation needs the `population_size` key). -/
def simulate {H G HS GS : Type} (w : SimWorld H G HS GS)
    (configs : Configuration) (a : Args) (r : ℚ) :
    Except PyErr (List HS × List GS × List ℚ) := do
  let configs := { configs with recombination_rate := some r }
  let draws := (w.windows r).flatMap
    (fun p => (List.range a.ndraw.toNat).map (fun j => (p, j)))
  let haplotypes := draws.map (fun pj => w.drawHap pj.1 pj.2)
  let genealogies := draws.map (fun pj => w.drawGen pj.1 pj.2)
  let rhos ← rho_loop configs.population_size r
    (draws.map (fun pj => w.drawLen pj.1 pj.2))
  return (haplotypes, genealogies, rhos)

/-- The result-concatenation loop of `run`
(data_provider_parallel.py:111-114): `haplotypes += result[0]`,
`genealogies += result[1]`, `rhos += result[2]` over the pool results. -/
def aggregate {HS GS : Type} (results : List (List HS × List GS × List ℚ)) :
    List HS × List GS × List ℚ :=
  results.foldl
    (fun acc res => (acc.1 ++ res.1, acc.2.1 ++ res.2.1, acc.2.2 ++ res.2.2))
    ([], [], [])

/-- The simulation phase of `run` (data_provider_parallel.py:106-114):
build `paras`, `pool.starmap(simulate, paras)`, concatenate the results. -/
def runSimulations {H G HS GS : Type} (w : SimWorld H G HS GS)
    (configs : Configuration) (a : Args) :
    Except PyErr (List HS × List GS × List ℚ) := do
  let paras ← mkParas configs a
  let results ← starmap (fun p => simulate w p.1 p.2.1 p.2.2) paras
  return aggregate results

/-- `SimWorld` extended with the external per-row statistics used by `run`
(data_provider_parallel.py:117-122): `popgen.utils.rfdist`, `triplet_dist`
and `linkage_disequilibrium` each return one value per input row, so they
are modelled as elementwise maps. -/
structure RunWorld (H G HS GS : Type) extends SimWorld H G HS GS where
  ld : HS → ℚ
  rf : GS → ℚ
  tri : GS → ℚ

/-- The feature assembly of `run` (data_provider_parallel.py:117-123):
per-row LD, RF-distance and triplet-distance columns concatenated along the
last axis, giving one `(ld, rf, tri)` row per sampled window. -/
def buildFeatures {H G HS GS : Type} (w : RunWorld H G HS GS)
    (haplotypes : List HS) (genealogies : List GS) : List (ℚ × ℚ × ℚ) :=
  let lds := haplotypes.map w.ld
  let rfs := genealogies.map w.rf
  let tris := genealogies.map w.tri
  lds.zip (rfs.zip tris)

/-- `run` (data_provider_parallel.py:92-125), end to end: pre-delegation
checks, simulation phase, feature assembly, `save_training_data`. -/
def run {H G HS GS : Type} (w : RunWorld H G HS GS) (a : Args)
    (argsGlobal : Option Args)
    (fs : FileSys (List (ℚ × ℚ × ℚ) × List (ℚ × ℚ × ℚ) × List ℚ × List ℚ)) :
    FileSys (List (ℚ × ℚ × ℚ) × List (ℚ × ℚ × ℚ) × List ℚ × List ℚ) ×
      Except PyErr Unit :=
  match runPreChecks a with
  | Except.error e => (fs, Except.error e)
  | Except.ok _ =>
    match runSimulations w.toSimWorld (build_configuration a) a with
    | Except.error e => (fs, Except.error e)
    | Except.ok res =>
        save_training_data argsGlobal fs a.out (buildFeatures w res.1 res.2.1, res.2.2)

/-! ### Concrete instances used in witnesses and counterexamples -/

/-- A valid argument set except for `nsam = 1` (out set, `rmin ≤ rmax`). -/
def cArgs1 : Args :=
  { nsam := 1, ndraw := 5, npop := 100, ne := 100000, ploidy := 1,
    mutation_rate := 1 / 40000000, demography := none, rmin := 0, rmax := 1,
    num_thread := 4, out := some "out.pkl", verbose := false }

/-- A valid argument set with `nsam = 2` and no demography file. -/
def cArgs2 : Args :=
  { cArgs1 with nsam := 2 }

/-- A valid argument set with `nsam = 0` (empty rate grid). -/
def cArgs0 : Args :=
  { cArgs1 with nsam := 0 }

/-- Arguments with a demography file and `ndraw = 0`. -/
def cArgsDemNoDraw : Args :=
  { cArgs1 with nsam := 2, demography := some "demo.csv", ndraw := 0 }

/-- Arguments with a demography file and `ndraw = 1`. -/
def cArgsDemDraw : Args :=
  { cArgs1 with nsam := 2, demography := some "demo.csv", ndraw := 1 }

/-- The trivial external world: the simulator yields no window pairs. -/
def emptyWorld : SimWorld ℕ ℕ ℕ ℕ :=
  { windows := fun _ => [], drawHap := fun _ _ => 0, drawGen := fun _ _ => 0,
    drawLen := fun _ _ => 0 }

/-- An external world yielding exactly one window pair at every rate. -/
def oneWindowWorld : SimWorld ℕ ℕ ℕ ℕ :=
  { windows := fun _ => [(0, 0)], drawHap := fun _ _ => 0,
    drawGen := fun _ _ => 0, drawLen := fun _ _ => 0 }

/-- `emptyWorld` with trivial per-row statistics. -/
def emptyRunWorld : RunWorld ℕ ℕ ℕ ℕ :=
  { toSimWorld := emptyWorld, ld := fun _ => 0, rf := fun _ => 0,
    tri := fun _ => 0 }

/-- The empty file system. -/
def emptyFileSys : FileSys (List ℕ × List ℕ × List ℕ × List ℕ) := fun _ => none

/-- A file system in which `data.pkl` already exists. -/
def occupiedFileSys : FileSys (List ℕ × List ℕ × List ℕ × List ℕ) :=
  fun q => if q = "data.pkl" then some ([], [], [], []) else none

/-! ### Helper lemmas -/

lemma exceptBind_error {α β : Type} (e : PyErr) (f : α → Except PyErr β) :
    (Bind.bind (Except.error e) f : Except PyErr β) = Except.error e := rfl

lemma exceptBind_ok {α β : Type} (a : α) (f : α → Except PyErr β) :
    (Bind.bind (Except.ok a) f : Except PyErr β) = f a := rfl

lemma exceptMap_error {α β : Type} (e : PyErr) (g : α → β) :
    (Functor.map g (Except.error e) : Except PyErr β) = Except.error e := rfl

lemma exceptMap_ok {α β : Type} (a : α) (g : α → β) :
    (Functor.map g (Except.ok a) : Except PyErr β) = Except.ok (g a) := rfl

lemma exceptPure {α : Type} (a : α) :
    (pure a : Except PyErr α) = Except.ok a := rfl

lemma pyAssert_pos {c : Prop} [Decidable c] (h : c) (msg : String) :
    pyAssert c msg = Except.ok () := if_pos h

lemma pyAssert_neg {c : Prop} [Decidable c] (h : ¬ c) (msg : String) :
    pyAssert c msg = Except.error (PyErr.assertionError msg) := if_neg h

lemma poolCheck_fail {processes : ℤ} (h : processes < 1) :
    poolCheck processes =
      Except.error (PyErr.valueError "Number of processes must be at least 1") :=
  if_pos h

lemma poolCheck_ok {processes : ℤ} (h : ¬ processes < 1) :
    poolCheck processes = Except.ok () := if_neg h

lemma starmap_ok {α β : Type} (f : α → Except PyErr β) (g : α → β) :
    ∀ l : List α, (∀ x ∈ l, f x = Except.ok (g x)) →
      starmap f l = Except.ok (l.map g)
  | [], _ => rfl
  | x :: xs, h => by
      have hx := h x (List.mem_cons_self x xs)
      have hxs := starmap_ok f g xs (fun y hy => h y (List.mem_cons_of_mem x hy))
      simp only [starmap, hx, hxs, List.map_cons]
      rfl

lemma starmap_map {α β γ : Type} (f : β → Except PyErr γ) (g : α → β) :
    ∀ l : List α, starmap f (l.map g) = starmap (fun x => f (g x)) l
  | [] => rfl
  | x :: xs => by
      simp only [starmap, List.map_cons, starmap_map f g xs]

lemma starmap_ok_members {α β : Type} (f : α → Except PyErr β) :
    ∀ (l : List α) (res : List β), starmap f l = Except.ok res →
      ∀ y ∈ res, ∃ x ∈ l, f x = Except.ok y := by
  intro l
  induction l with
  | nil =>
      intro res h y hy
      have hres : ([] : List β) = res := Except.ok.inj h
      subst hres
      exact absurd hy (List.not_mem_nil y)
  | cons x xs ih =>
      intro res h y hy
      simp only [starmap] at h
      cases hfx : f x with
      | error e =>
          rw [hfx, exceptBind_error] at h
          exact Except.noConfusion h
      | ok y0 =>
          rw [hfx, exceptBind_ok] at h
          cases hxs : starmap f xs with
          | error e =>
              rw [hxs, exceptBind_error] at h
              exact Except.noConfusion h
          | ok ys =>
              rw [hxs, exceptBind_ok] at h
              have hres : y0 :: ys = res := Except.ok.inj h
              subst hres
              rcases List.mem_cons.mp hy with hy0 | hymem
              · exact ⟨x, List.mem_cons_self x xs, hy0 ▸ hfx⟩
              · obtain ⟨x', hx', hfx'⟩ := ih ys hxs y hymem
                exact ⟨x', List.mem_cons_of_mem x hx', hfx'⟩

lemma rho_loop_some (ps r : ℚ) :
    ∀ lens : List ℚ, rho_loop (some ps) r lens =
      Except.ok (lens.map (fun len => 2 * ps * r * len))
  | [] => rfl
  | len :: rest => by
      simp only [rho_loop, rho_loop_some ps r rest, List.map_cons]
      rfl

lemma rho_loop_length (ps? : Option ℚ) (r : ℚ) :
    ∀ (lens rs : List ℚ), rho_loop ps? r lens = Except.ok rs →
      rs.length = lens.length := by
  intro lens
  induction lens with
  | nil => intro rs h; cases h; rfl
  | cons len rest _ih =>
      intro rs h
      cases ps? with
      | none => exact absurd h (by simp [rho_loop])
      | some ps =>
          rw [rho_loop_some] at h
          cases h
          simp

lemma rho_loop_none_cons (r len : ℚ) (rest : List ℚ) :
    rho_loop none r (len :: rest) = Except.error (PyErr.keyError "population_size") := rfl

lemma aggregate_spec {HS GS : Type} (rs : List (List HS × List GS × List ℚ)) :
    aggregate rs = ((rs.map (fun v => v.1)).flatten,
      (rs.map (fun v => v.2.1)).flatten, (rs.map (fun v => v.2.2)).flatten) := by
  have key : ∀ (rs : List (List HS × List GS × List ℚ))
      (acc : List HS × List GS × List ℚ),
      rs.foldl (fun acc res =>
          (acc.1 ++ res.1, acc.2.1 ++ res.2.1, acc.2.2 ++ res.2.2)) acc =
        (acc.1 ++ (rs.map (fun v => v.1)).flatten,
         acc.2.1 ++ (rs.map (fun v => v.2.1)).flatten,
         acc.2.2 ++ (rs.map (fun v => v.2.2)).flatten) := by
    intro rs
    induction rs with
    | nil => intro acc; simp
    | cons r rs ih => intro acc; simp [ih]
  simpa [aggregate] using key rs ([], [], [])

lemma checked_const_eq_ok {nsam : ℤ} (h2 : 2 ≤ nsam) (i : ℕ) (rmin rmax : ℚ) :
    recombination_rate_const_interpolation_checked nsam i rmin rmax =
      Except.ok (recombination_rate_const_interpolation nsam.toNat i rmin rmax) := by
  have hne : nsam - 1 ≠ 0 := by omega
  have hc : ((nsam.toNat : ℕ) : ℚ) = ((nsam : ℤ) : ℚ) := by
    exact_mod_cast congrArg (fun z : ℤ => (z : ℚ)) (Int.toNat_of_nonneg (by omega))
  rw [recombination_rate_const_interpolation_checked, if_neg hne,
    recombination_rate_const_interpolation, hc]

lemma mkParas_ok (c : Configuration) (a : Args) (h2 : 2 ≤ a.nsam) :
    mkParas c a = Except.ok ((List.range a.nsam.toNat).map
      (fun i => (c, a,
        recombination_rate_const_interpolation a.nsam.toNat i a.rmin a.rmax))) := by
  apply starmap_ok
  intro i _
  rw [checked_const_eq_ok h2]
  rfl

lemma mkParas_nsam_one (c : Configuration) (a : Args) (h1 : a.nsam = 1) :
    mkParas c a = Except.error PyErr.zeroDivisionError := by
  simp only [mkParas, h1]
  rfl

lemma mkParas_nonpos (c : Configuration) (a : Args) (h : a.nsam ≤ 0) :
    mkParas c a = Except.ok [] := by
  have ht : a.nsam.toNat = 0 := Int.toNat_of_nonpos h
  simp only [mkParas, ht]
  rfl

lemma config_update_population_size (c : Configuration) (r : ℚ) :
    ({ c with recombination_rate := some r } : Configuration).population_size =
      c.population_size := rfl

lemma simulate_ok_lengths {H G HS GS : Type} (w : SimWorld H G HS GS)
    (c : Configuration) (a : Args) (r : ℚ)
    (res : List HS × List GS × List ℚ)
    (h : simulate w c a r = Except.ok res) :
    res.1.length = res.2.1.length ∧ res.2.1.length = res.2.2.length := by
  simp only [simulate, config_update_population_size] at h
  cases hr : rho_loop c.population_size r
      (((w.windows r).flatMap
        (fun p => (List.range a.ndraw.toNat).map (fun j => (p, j)))).map
        (fun pj => w.drawLen pj.1 pj.2)) with
  | error e =>
      rw [hr, exceptBind_error] at h
      exact Except.noConfusion h
  | ok rs =>
      rw [hr, exceptBind_ok] at h
      have hres := (Except.ok.inj h).symm
      subst hres
      have hlen := rho_loop_length _ _ _ _ hr
      simp only [List.length_map] at hlen ⊢
      exact ⟨trivial, hlen.symm⟩

lemma simulate_keyerror {H G HS GS : Type} (w : SimWorld H G HS GS)
    (c : Configuration) (a : Args) (r : ℚ)
    (hps : c.population_size = none) (hw : w.windows r ≠ [])
    (hnd : 1 ≤ a.ndraw) :
    simulate w c a r = Except.error (PyErr.keyError "population_size") := by
  obtain ⟨p, ws, hcons⟩ := List.exists_cons_of_ne_nil hw
  obtain ⟨m, hm⟩ : ∃ m, a.ndraw.toNat = m + 1 :=
    ⟨a.ndraw.toNat - 1, by omega⟩
  rw [simulate, config_update_population_size, hps, hcons, hm,
    List.range_succ_eq_map]
  simp only [List.flatMap_cons, List.map_cons, List.map_append,
    rho_loop_none_cons]
  rfl

lemma runSimulations_ok {H G HS GS : Type} (w : SimWorld H G HS GS)
    (c : Configuration) (a : Args) (out : List HS × List GS × List ℚ)
    (h : runSimulations w c a = Except.ok out) :
    ∃ paras results, mkParas c a = Except.ok paras ∧
      starmap (fun p => simulate w p.1 p.2.1 p.2.2) paras = Except.ok results ∧
      out = aggregate results := by
  simp only [runSimulations] at h
  cases hp : mkParas c a with
  | error e =>
      rw [hp, exceptBind_error] at h
      exact Except.noConfusion h
  | ok paras =>
      rw [hp, exceptBind_ok] at h
      cases hs : starmap (fun p => simulate w p.1 p.2.1 p.2.2) paras with
      | error e =>
          rw [hs, exceptBind_error] at h
          exact Except.noConfusion h
      | ok results =>
          rw [hs, exceptBind_ok] at h
          exact ⟨paras, results, rfl, hs, (Except.ok.inj h).symm⟩

lemma aggregate_lengths {HS GS : Type}
    (results : List (List HS × List GS × List ℚ))
    (h : ∀ res ∈ results,
      res.1.length = res.2.1.length ∧ res.2.1.length = res.2.2.length) :
    (aggregate results).1.length = (aggregate results).2.1.length ∧
    (aggregate results).2.1.length = (aggregate results).2.2.length := by
  rw [aggregate_spec]
  simp only [List.length_flatten, List.map_map]
  constructor
  · congr 1
    apply List.map_congr_left
    intro res hres
    exact (h res hres).1
  · congr 1
    apply List.map_congr_left
    intro res hres
    exact (h res hres).2

lemma quadratic_eq_sq_const {K : Type} [LinearOrderedField K]
    (sqrtF : K → K) (nsam i : ℕ) (rmin rmax : K) :
    recombination_rate_quadratic_interpolation sqrtF nsam i rmin rmax =
      (recombination_rate_const_interpolation nsam i (sqrtF rmin) (sqrtF rmax)) ^ 2 := rfl

section ConstInterpolation

variable {K : Type} [LinearOrderedField K]

lemma cast_pred_pos {nsam : ℕ} (h2 : 2 ≤ nsam) : (0 : K) < (nsam : K) - 1 := by
  have : (2 : K) ≤ (nsam : K) := by exact_mod_cast h2
  linarith

lemma const_interpolation_mono {nsam i j : ℕ} {a b : K}
    (h2 : 2 ≤ nsam) (hab : a ≤ b) (hij : i ≤ j) :
    recombination_rate_const_interpolation nsam i a b ≤
      recombination_rate_const_interpolation nsam j a b := by
  unfold recombination_rate_const_interpolation
  have hD : (0 : K) < (nsam : K) - 1 := cast_pred_pos h2
  have hs : (0 : K) ≤ (b - a) / ((nsam : K) - 1) := div_nonneg (by linarith) hD.le
  have hcast : (i : K) ≤ (j : K) := by exact_mod_cast hij
  have := mul_le_mul_of_nonneg_left hcast hs
  linarith

lemma const_interpolation_lower {nsam i : ℕ} {a b : K}
    (h2 : 2 ≤ nsam) (hab : a ≤ b) :
    a ≤ recombination_rate_const_interpolation nsam i a b := by
  unfold recombination_rate_const_interpolation
  have hD : (0 : K) < (nsam : K) - 1 := cast_pred_pos h2
  have hs : (0 : K) ≤ (b - a) / ((nsam : K) - 1) := div_nonneg (by linarith) hD.le
  have hi : (0 : K) ≤ (i : K) := by positivity
  nlinarith

lemma const_interpolation_upper {nsam i : ℕ} {a b : K}
    (h2 : 2 ≤ nsam) (hab : a ≤ b) (hi : i ≤ nsam - 1) :
    recombination_rate_const_interpolation nsam i a b ≤ b := by
  unfold recombination_rate_const_interpolation
  have hD : (0 : K) < (nsam : K) - 1 := cast_pred_pos h2
  have hs : (0 : K) ≤ (b - a) / ((nsam : K) - 1) := div_nonneg (by linarith) hD.le
  have hcast : (i : K) ≤ (nsam : K) - 1 := by
    have h1 : (1 : ℕ) ≤ nsam := by omega
    have hc : ((nsam - 1 : ℕ) : K) = (nsam : K) - 1 := by
      push_cast [Nat.cast_sub h1]
      ring
    calc (i : K) ≤ ((nsam - 1 : ℕ) : K) := by exact_mod_cast hi
      _ = (nsam : K) - 1 := hc
  have hmul := mul_le_mul_of_nonneg_left hcast hs
  have hcancel : (b - a) / ((nsam : K) - 1) * ((nsam : K) - 1) = b - a :=
    div_mul_cancel₀ _ hD.ne'
  linarith

lemma const_interpolation_zero {nsam : ℕ} {a b : K} :
    recombination_rate_const_interpolation nsam 0 a b = a := by
  simp [recombination_rate_const_interpolation]

lemma const_interpolation_last {nsam : ℕ} {a b : K} (h2 : 2 ≤ nsam) :
    recombination_rate_const_interpolation nsam (nsam - 1) a b = b := by
  unfold recombination_rate_const_interpolation
  have hD : (0 : K) < (nsam : K) - 1 := cast_pred_pos h2
  have h1 : (1 : ℕ) ≤ nsam := by omega
  have hcast : ((nsam - 1 : ℕ) : K) = (nsam : K) - 1 := by
    push_cast [Nat.cast_sub h1]
    ring
  rw [hcast, div_mul_cancel₀ _ hD.ne']
  ring

end ConstInterpolation

/-! ### Claim theorems -/

/-- C1: for `nsam ≥ 2` and `0 ≤ rmin ≤ rmax`, both rate-interpolation
functions are monotone non-decreasing in the grid index `i`; for
`i ≤ nsam - 1` their value lies in `[rmin, rmax]`; the value at `i = 0` is
`rmin` and at `i = nsam - 1` is `rmax` (real-arithmetic model of the float
formulas, with `np.sqrt` as `Real.sqrt`). -/
theorem interpolation_monotone_and_bounded (nsam i j : ℕ) (rmin rmax : ℝ)
    (h2 : 2 ≤ nsam) (h0 : 0 ≤ rmin) (hle : rmin ≤ rmax) :
    (i ≤ j → recombination_rate_const_interpolation nsam i rmin rmax ≤
      recombination_rate_const_interpolation nsam j rmin rmax) ∧
    (i ≤ j → recombination_rate_quadratic_interpolation Real.sqrt nsam i rmin rmax ≤
      recombination_rate_quadratic_interpolation Real.sqrt nsam j rmin rmax) ∧
    (i ≤ nsam - 1 →
      rmin ≤ recombination_rate_const_interpolation nsam i rmin rmax ∧
      recombination_rate_const_interpolation nsam i rmin rmax ≤ rmax ∧
      rmin ≤ recombination_rate_quadratic_interpolation Real.sqrt nsam i rmin rmax ∧
      recombination_rate_quadratic_interpolation Real.sqrt nsam i rmin rmax ≤ rmax) ∧
    recombination_rate_const_interpolation nsam 0 rmin rmax = rmin ∧
    recombination_rate_const_interpolation nsam (nsam - 1) rmin rmax = rmax ∧
    recombination_rate_quadratic_interpolation Real.sqrt nsam 0 rmin rmax = rmin ∧
    recombination_rate_quadratic_interpolation Real.sqrt nsam (nsam - 1) rmin rmax = rmax := by
  have hs0 : (0 : ℝ) ≤ Real.sqrt rmin := Real.sqrt_nonneg _
  have hss : Real.sqrt rmin ≤ Real.sqrt rmax := Real.sqrt_le_sqrt hle
  have hsqmin : Real.sqrt rmin ^ 2 = rmin := Real.sq_sqrt h0
  have hsqmax : Real.sqrt rmax ^ 2 = rmax := Real.sq_sqrt (le_trans h0 hle)
  refine ⟨fun hij => const_interpolation_mono h2 hle hij, fun hij => ?_,
    fun hi => ?_, ?_, ?_, ?_, ?_⟩
  · rw [quadratic_eq_sq_const, quadratic_eq_sq_const]
    have hui : (0 : ℝ) ≤ recombination_rate_const_interpolation nsam i
        (Real.sqrt rmin) (Real.sqrt rmax) :=
      le_trans hs0 (const_interpolation_lower h2 hss)
    exact pow_le_pow_left₀ hui (const_interpolation_mono h2 hss hij) 2
  · refine ⟨const_interpolation_lower h2 hle, const_interpolation_upper h2 hle hi, ?_, ?_⟩
    · rw [quadratic_eq_sq_const]
      have h1 := pow_le_pow_left₀ hs0 (const_interpolation_lower (i := i) h2 hss) 2
      rwa [hsqmin] at h1
    · rw [quadratic_eq_sq_const]
      have hui : (0 : ℝ) ≤ recombination_rate_const_interpolation nsam i
          (Real.sqrt rmin) (Real.sqrt rmax) :=
        le_trans hs0 (const_interpolation_lower h2 hss)
      have h1 := pow_le_pow_left₀ hui (const_interpolation_upper h2 hss hi) 2
      rwa [hsqmax] at h1
  · exact const_interpolation_zero
  · exact const_interpolation_last h2
  · rw [quadratic_eq_sq_const, const_interpolation_zero, hsqmin]
  · rw [quadratic_eq_sq_const, const_interpolation_last h2, hsqmax]

/-- Witness for C1 at `nsam = 2`, `i = 0`, `j = 1`, `rmin = 0`, `rmax = 1`. -/
theorem interpolation_monotone_and_bounded_witness :
    (2 ≤ 2) ∧ ((0 : ℝ) ≤ 0) ∧ ((0 : ℝ) ≤ 1) ∧
    ((0 ≤ 1 → recombination_rate_const_interpolation 2 0 (0 : ℝ) 1 ≤
      recombination_rate_const_interpolation 2 1 (0 : ℝ) 1) ∧
    (0 ≤ 1 → recombination_rate_quadratic_interpolation Real.sqrt 2 0 (0 : ℝ) 1 ≤
      recombination_rate_quadratic_interpolation Real.sqrt 2 1 (0 : ℝ) 1) ∧
    (0 ≤ 2 - 1 →
      (0 : ℝ) ≤ recombination_rate_const_interpolation 2 0 (0 : ℝ) 1 ∧
      recombination_rate_const_interpolation 2 0 (0 : ℝ) 1 ≤ 1 ∧
      (0 : ℝ) ≤ recombination_rate_quadratic_interpolation Real.sqrt 2 0 (0 : ℝ) 1 ∧
      recombination_rate_quadratic_interpolation Real.sqrt 2 0 (0 : ℝ) 1 ≤ 1) ∧
    recombination_rate_const_interpolation 2 0 (0 : ℝ) 1 = 0 ∧
    recombination_rate_const_interpolation 2 (2 - 1) (0 : ℝ) 1 = 1 ∧
    recombination_rate_quadratic_interpolation Real.sqrt 2 0 (0 : ℝ) 1 = 0 ∧
    recombination_rate_quadratic_interpolation Real.sqrt 2 (2 - 1) (0 : ℝ) 1 = 1) :=
  ⟨le_refl 2, le_refl 0, zero_le_one,
    interpolation_monotone_and_bounded 2 0 1 0 1 (le_refl 2) (le_refl 0) zero_le_one⟩

/-- C2 (amended): the program's own pre-delegation error behaviour is exactly
characterised: `run` raises `AssertionError` when the output path is unset or
when `rmax < rmin`, then `ValueError` from `Pool(num_thread // 2)` when
`num_thread // 2 < 1`, then `ZeroDivisionError` when `nsam = 1` (while
building the rate grid); `test_provider.run` raises `AssertionError` when
the output path is unset or a supplied demography/rate-map file is missing;
`save_training_data` raises `AssertionError` when the path is unset or
already exists (its `NameError` branch fires only after delegating to the
library split function).  No other error is raised before delegating to the
external library. -/
theorem error_handling_pre_delegation {X Y : Type} (a : Args) (ta : TPArgs)
    (pathExists : String → Bool) (g : Option Args)
    (fs : FileSys (List X × List X × List Y × List Y)) (path : Option String)
    (d : List X × List Y) :
    runPreChecks a =
      (if a.out = none then Except.error (PyErr.assertionError "no output name.")
       else if a.rmax < a.rmin then
         Except.error (PyErr.assertionError "r_max should be greater than r_min.")
       else if Int.fdiv a.num_thread 2 < 1 then
         Except.error (PyErr.valueError "Number of processes must be at least 1")
       else if a.nsam = 1 then Except.error PyErr.zeroDivisionError
       else Except.ok ()) ∧
    tp_run_pre_checks pathExists ta =
      (if ta.out = none then Except.error (PyErr.assertionError "no output name.")
       else if ta.demography.any (fun p => ! pathExists p) then
         Except.error (PyErr.assertionError "")
       else if ta.rate_map.any (fun p => ! pathExists p) then
         Except.error (PyErr.assertionError "")
       else Except.ok ()) ∧
    (save_training_data g fs path d).2 =
      (if path = none then Except.error (PyErr.assertionError "no file provided.")
       else if path.any (fun p => (fs p).isSome) then
         Except.error (PyErr.assertionError "file has already existed.")
       else if g = none then Except.error (PyErr.nameError "args")
       else Except.ok ()) := by
  refine ⟨?_, ?_, ?_⟩
  · by_cases h1 : a.out = none
    · simp only [runPreChecks]
      rw [pyAssert_neg (fun hne => hne h1), exceptBind_error, if_pos h1]
    · simp only [runPreChecks]
      rw [pyAssert_pos h1, exceptBind_ok, if_neg h1]
      by_cases h2 : a.rmax < a.rmin
      · rw [pyAssert_neg (not_le.mpr h2), exceptBind_error, if_pos h2]
      · rw [pyAssert_pos (not_lt.mp h2), exceptBind_ok, if_neg h2]
        by_cases hpool : Int.fdiv a.num_thread 2 < 1
        · rw [poolCheck_fail hpool, exceptBind_error, if_pos hpool]
        · rw [poolCheck_ok hpool, exceptBind_ok, if_neg hpool]
          by_cases h3 : a.nsam = 1
          · rw [mkParas_nsam_one _ _ h3, exceptBind_error, if_pos h3]
          · rw [if_neg h3]
            rcases lt_or_le a.nsam 1 with h4 | h4
            · rw [mkParas_nonpos _ _ (by omega), exceptBind_ok]
              rfl
            · rw [mkParas_ok _ _ (by omega), exceptBind_ok]
              rfl
  · obtain ⟨tnpop, tne, tploidy, tmu, tdem, trr, tsl, tmap, tnt, tout, tvb⟩ := ta
    cases tout with
    | none =>
        simp [tp_run_pre_checks, pyAssert, exceptBind_error, exceptBind_ok,
          exceptPure]
    | some o =>
        cases tdem with
        | none =>
            cases tmap with
            | none =>
                simp [tp_run_pre_checks, pyAssert, exceptBind_error,
                  exceptBind_ok, exceptPure]
            | some q =>
                cases hq : pathExists q <;>
                  simp [tp_run_pre_checks, pyAssert, exceptBind_error,
                    exceptBind_ok, exceptPure, hq]
        | some p =>
            cases hp : pathExists p with
            | false =>
                simp [tp_run_pre_checks, pyAssert, exceptBind_error,
                  exceptBind_ok, exceptPure, hp]
            | true =>
                cases tmap with
                | none =>
                    simp [tp_run_pre_checks, pyAssert, exceptBind_error,
                      exceptBind_ok, exceptPure, hp]
                | some q =>
                    cases hq : pathExists q <;>
                      simp [tp_run_pre_checks, pyAssert, exceptBind_error,
                        exceptBind_ok, exceptPure, hp, hq]
  · cases path with
    | none => rfl
    | some p =>
        by_cases hex : (fs p).isSome = true
        · simp [save_training_data, hex]
        · cases g with
          | none => simp [save_training_data, hex]
          | some g0 => simp [save_training_data, hex]

/-- C2 counterexample: with `nsam = 1`, a set output path, no demography file
and `rmin ≤ rmax`, `run` raises `ZeroDivisionError` — not an
`AssertionError` — before delegating to the external library, refuting the
claim that its pre-delegation error handling consists exactly of assertions. -/
theorem run_precheck_zerodiv_counterexample :
    runPreChecks cArgs1 = Except.error PyErr.zeroDivisionError := by
  have h := mkParas_nsam_one (build_configuration cArgs1) cArgs1 rfl
  simp only [runPreChecks]
  rw [pyAssert_pos (show cArgs1.out ≠ none from fun hc => Option.noConfusion hc),
    exceptBind_ok,
    pyAssert_pos (show cArgs1.rmin ≤ cArgs1.rmax by norm_num [cArgs1]),
    exceptBind_ok,
    poolCheck_ok (show ¬ Int.fdiv cArgs1.num_thread 2 < 1 by decide),
    exceptBind_ok, h, exceptBind_error]

/-- C10 (amended): for `nsam = 1` the const interpolation (Python float
arithmetic) raises `ZeroDivisionError` on every call, while the quadratic
interpolation (numpy float64 arithmetic) raises nothing and returns a
non-finite value; `run` builds its grid with the const interpolation, so a
call with `nsam = 1` that passes the asserts and the pool construction
(`num_thread // 2 ≥ 1`) dies with `ZeroDivisionError` — a precondition
(`nsam ≠ 1`) that is not asserted anywhere. -/
theorem interpolation_nsam_one_behaviour (sqrtF : ℚ → ℚ) (i : ℕ)
    (rmin rmax : ℚ) :
    recombination_rate_const_interpolation_checked 1 i rmin rmax =
      Except.error PyErr.zeroDivisionError ∧
    recombination_rate_quadratic_interpolation_checked sqrtF 1 i rmin rmax =
      Except.ok none ∧
    (∀ a : Args, a.nsam = 1 → a.out ≠ none → a.rmin ≤ a.rmax →
      1 ≤ Int.fdiv a.num_thread 2 →
      runPreChecks a = Except.error PyErr.zeroDivisionError) := by
  refine ⟨rfl, rfl, ?_⟩
  intro a h1 h2 h3 h4
  simp only [runPreChecks]
  rw [pyAssert_pos h2, exceptBind_ok, pyAssert_pos h3, exceptBind_ok,
    poolCheck_ok (not_lt.mpr h4), exceptBind_ok,
    mkParas_nsam_one _ _ h1, exceptBind_error]

/-- Witness for C10 at `sqrtF = id`, `i = 0`, `rmin = 0`, `rmax = 1`, and the
concrete argument set `cArgs1` (whose `nsam` is 1). -/
theorem interpolation_nsam_one_behaviour_witness :
    recombination_rate_const_interpolation_checked 1 0 0 1 =
      Except.error PyErr.zeroDivisionError ∧
    recombination_rate_quadratic_interpolation_checked id 1 0 0 1 =
      Except.ok none ∧
    cArgs1.nsam = 1 ∧
    1 ≤ Int.fdiv cArgs1.num_thread 2 ∧
    runPreChecks cArgs1 = Except.error PyErr.zeroDivisionError := by
  have T := interpolation_nsam_one_behaviour id 0 0 1
  exact ⟨T.1, T.2.1, rfl, by decide,
    T.2.2 cArgs1 rfl (fun hc => Option.noConfusion hc) (by norm_num [cArgs1])
      (by decide)⟩

/-- C10 counterexample: the quadratic interpolation at `nsam = 1` does NOT
raise `ZeroDivisionError` (it returns a non-finite numpy value), refuting the
claim that for `nsam = 1` every call of both functions raises. -/
theorem quadratic_no_zerodiv_counterexample :
    recombination_rate_quadratic_interpolation_checked id 1 0 (0 : ℚ) 1 ≠
      Except.error PyErr.zeroDivisionError := by
  intro h
  exact Except.noConfusion h

/-- C3: `save_training_data` fails with `AssertionError` on an existing path,
returning with the file system unchanged (the write never happens), and
likewise fails when the path is `None`. -/
theorem save_training_data_refuses_existing {X Y : Type} (g : Option Args)
    (fs : FileSys (List X × List X × List Y × List Y)) (p : String)
    (d : List X × List Y) (h : (fs p).isSome = true) :
    save_training_data g fs (some p) d =
      (fs, Except.error (PyErr.assertionError "file has already existed.")) ∧
    save_training_data g fs none d =
      (fs, Except.error (PyErr.assertionError "no file provided.")) := by
  constructor
  · simp [save_training_data, h]
  · rfl

/-- Witness for C3 on a file system where `data.pkl` already exists. -/
theorem save_training_data_refuses_existing_witness :
    (occupiedFileSys "data.pkl").isSome = true ∧
    save_training_data none occupiedFileSys (some "data.pkl") ([], []) =
      (occupiedFileSys,
        Except.error (PyErr.assertionError "file has already existed.")) ∧
    save_training_data none occupiedFileSys none ([], []) =
      (occupiedFileSys, Except.error (PyErr.assertionError "no file provided.")) := by
  have T := save_training_data_refuses_existing none occupiedFileSys "data.pkl"
    ([], []) (by rfl)
  exact ⟨rfl, T.1, T.2⟩

/-- C4: for equal row counts, the split's train and test partitions sum to
the total row count for both features and targets, the target partitions
match the feature partitions row-for-row, and the test partition holds
`⌈0.2·n⌉` rows (`n ≤ 5·test ≤ n + 4`). -/
theorem train_test_split_counts {X Y : Type} (x : List X) (y : List Y)
    (h : y.length = x.length) :
    (train_test_split x y).1.length + (train_test_split x y).2.1.length = x.length ∧
    (train_test_split x y).2.2.1.length + (train_test_split x y).2.2.2.length = x.length ∧
    (train_test_split x y).2.2.1.length = (train_test_split x y).1.length ∧
    (train_test_split x y).2.2.2.length = (train_test_split x y).2.1.length ∧
    x.length ≤ 5 * (train_test_split x y).2.1.length ∧
    5 * (train_test_split x y).2.1.length ≤ x.length + 4 := by
  simp only [train_test_split]
  rw [List.length_take_of_le (by omega),
      List.length_take_of_le (by omega),
      List.length_drop, List.length_drop, h]
  omega

/-- Witness for C4 on five concrete rows (train 4, test 1). -/
theorem train_test_split_counts_witness :
    (([10, 20, 30, 40, 50] : List ℕ).length = ([0, 1, 2, 3, 4] : List ℕ).length) ∧
    (train_test_split [0, 1, 2, 3, 4] [10, 20, 30, 40, 50]).1.length +
      (train_test_split [0, 1, 2, 3, 4] [10, 20, 30, 40, 50]).2.1.length =
        ([0, 1, 2, 3, 4] : List ℕ).length ∧
    ([0, 1, 2, 3, 4] : List ℕ).length ≤
      5 * (train_test_split [0, 1, 2, 3, 4] [10, 20, 30, 40, 50]).2.1.length := by
  have T := train_test_split_counts ([0, 1, 2, 3, 4] : List ℕ)
    ([10, 20, 30, 40, 50] : List ℕ) rfl
  exact ⟨rfl, T.1, T.2.2.2.2.1⟩

/-- C9: when no module-level `args` binding exists, `save_training_data` on a
fresh path still raises (`NameError`, from the final logging line), but the
pickle file has already been written: the output exists although the call
failed — the operation is not atomic on this error. -/
theorem save_training_data_nameerror_after_write {X Y : Type}
    (fs : FileSys (List X × List X × List Y × List Y)) (p : String)
    (d : List X × List Y) (hfresh : fs p = none) :
    (save_training_data none fs (some p) d).2 =
      Except.error (PyErr.nameError "args") ∧
    (save_training_data none fs (some p) d).1 p =
      some (train_test_split d.1 d.2) := by
  have hb : (fs p).isSome = false := by rw [hfresh]; rfl
  simp [save_training_data, hb]

/-- Witness for C9 on the empty file system at path `out.pkl`. -/
theorem save_training_data_nameerror_after_write_witness :
    emptyFileSys "out.pkl" = none ∧
    (save_training_data none emptyFileSys (some "out.pkl") ([0], [7])).2 =
      Except.error (PyErr.nameError "args") ∧
    (save_training_data none emptyFileSys (some "out.pkl") ([0], [7])).1 "out.pkl" =
      some (train_test_split [0] [7]) := by
  have T := save_training_data_nameerror_after_write emptyFileSys "out.pkl"
    ([0], [7]) rfl
  exact ⟨rfl, T.1, T.2⟩

/-- C5: for `nsam ≥ 2`, `run` builds one parameter tuple per grid index
`i ∈ 0..nsam-1` with rate `recombination_rate_const_interpolation(nsam, i,
rmin, rmax)` (so `simulate` is invoked exactly `nsam` times, once per index,
in grid order), and when every call succeeds the aggregated haplotype,
genealogy and rho lists are exactly the concatenation, in grid-index order,
of the per-call results. -/
theorem run_grid_and_concatenation {H G HS GS : Type} (w : SimWorld H G HS GS)
    (c : Configuration) (a : Args) (f : ℕ → List HS × List GS × List ℚ)
    (h2 : 2 ≤ a.nsam)
    (hsim : ∀ i < a.nsam.toNat, simulate w c a
        (recombination_rate_const_interpolation a.nsam.toNat i a.rmin a.rmax) =
      Except.ok (f i)) :
    mkParas c a = Except.ok ((List.range a.nsam.toNat).map
      (fun i => (c, a,
        recombination_rate_const_interpolation a.nsam.toNat i a.rmin a.rmax))) ∧
    (List.range a.nsam.toNat).length = a.nsam.toNat ∧
    runSimulations w c a = Except.ok
      (((List.range a.nsam.toNat).map (fun i => (f i).1)).flatten,
       ((List.range a.nsam.toNat).map (fun i => (f i).2.1)).flatten,
       ((List.range a.nsam.toNat).map (fun i => (f i).2.2)).flatten) := by
  have hparas := mkParas_ok c a h2
  refine ⟨hparas, List.length_range _, ?_⟩
  have hchain : starmap
      (fun p : Configuration × Args × ℚ => simulate w p.1 p.2.1 p.2.2)
      ((List.range a.nsam.toNat).map (fun i => (c, a,
        recombination_rate_const_interpolation a.nsam.toNat i a.rmin a.rmax))) =
      Except.ok ((List.range a.nsam.toNat).map f) :=
    (starmap_map _ _ _).trans
      (starmap_ok _ f _ (fun i hi => hsim i (List.mem_range.mp hi)))
  simp only [runSimulations, hparas, exceptBind_ok, hchain, aggregate_spec,
    List.map_map, exceptPure]
  rfl

/-- Witness for C5 with `nsam = 2` and the trivial external world (every
`simulate` call returns empty lists). -/
theorem run_grid_and_concatenation_witness :
    (2 ≤ cArgs2.nsam) ∧
    (∀ i < cArgs2.nsam.toNat, simulate emptyWorld (build_configuration cArgs2)
        cArgs2 (recombination_rate_const_interpolation cArgs2.nsam.toNat i
          cArgs2.rmin cArgs2.rmax) =
      Except.ok (([], [], []) : List ℕ × List ℕ × List ℚ)) ∧
    mkParas (build_configuration cArgs2) cArgs2 =
      Except.ok ((List.range cArgs2.nsam.toNat).map
        (fun i => (build_configuration cArgs2, cArgs2,
          recombination_rate_const_interpolation cArgs2.nsam.toNat i
            cArgs2.rmin cArgs2.rmax))) ∧
    runSimulations emptyWorld (build_configuration cArgs2) cArgs2 = Except.ok
      (((List.range cArgs2.nsam.toNat).map
          (fun _ => ([] : List ℕ))).flatten,
       ((List.range cArgs2.nsam.toNat).map
          (fun _ => ([] : List ℕ))).flatten,
       ((List.range cArgs2.nsam.toNat).map
          (fun _ => ([] : List ℚ))).flatten) := by
  have T := run_grid_and_concatenation emptyWorld (build_configuration cArgs2)
    cArgs2 (fun _ => ([], [], [])) (by decide) (fun i _ => rfl)
  exact ⟨by decide, fun i _ => rfl, T.1, T.2.2⟩

/-- C6: on a fresh path with the module-global `args` bound,
`save_training_data` succeeds and stores at the path exactly the 4-tuple
`(x_train, x_test, y_train, y_test)` produced by the split, in that order. -/
theorem save_training_data_writes_four_tuple {X Y : Type} (g : Args)
    (fs : FileSys (List X × List X × List Y × List Y)) (p : String)
    (x : List X) (y : List Y) (hfresh : fs p = none) :
    (save_training_data (some g) fs (some p) (x, y)).2 = Except.ok () ∧
    (save_training_data (some g) fs (some p) (x, y)).1 p =
      some ((train_test_split x y).1, (train_test_split x y).2.1,
        (train_test_split x y).2.2.1, (train_test_split x y).2.2.2) := by
  have hb : (fs p).isSome = false := by rw [hfresh]; rfl
  simp [save_training_data, hb]

/-- Witness for C6 on the empty file system with one feature/target row. -/
theorem save_training_data_writes_four_tuple_witness :
    emptyFileSys "train.pkl" = none ∧
    (save_training_data (some cArgs2) emptyFileSys (some "train.pkl")
      ([3], [9])).2 = Except.ok () ∧
    (save_training_data (some cArgs2) emptyFileSys (some "train.pkl")
      ([3], [9])).1 "train.pkl" =
      some ((train_test_split [3] [9]).1, (train_test_split [3] [9]).2.1,
        (train_test_split [3] [9]).2.2.1, (train_test_split [3] [9]).2.2.2) := by
  have T := save_training_data_writes_four_tuple cArgs2 emptyFileSys
    "train.pkl" [3] [9] rfl
  exact ⟨rfl, T.1, T.2⟩

/-- C7: a successful `simulate` call returns haplotype, genealogy and rho
lists of equal length (the three appends run in lockstep), and for a
successful simulation phase of `run` the assembled feature rows equal the
rho target rows handed to `save_training_data`. -/
theorem simulate_lockstep_and_feature_rows {H G HS GS : Type}
    (w : RunWorld H G HS GS) (c c2 : Configuration) (a a2 : Args) (r : ℚ)
    (res : List HS × List GS × List ℚ) (haps : List HS) (gens : List GS)
    (rhos : List ℚ)
    (hsim : simulate w.toSimWorld c a r = Except.ok res)
    (hrun : runSimulations w.toSimWorld c2 a2 = Except.ok (haps, gens, rhos)) :
    (res.1.length = res.2.1.length ∧ res.2.1.length = res.2.2.length) ∧
    haps.length = gens.length ∧ gens.length = rhos.length ∧
    (buildFeatures w haps gens).length = rhos.length := by
  refine ⟨simulate_ok_lengths _ _ _ _ _ hsim, ?_⟩
  obtain ⟨paras, results, _hp, hstar, hout⟩ := runSimulations_ok _ _ _ _ hrun
  have hmem : ∀ res' ∈ results,
      res'.1.length = res'.2.1.length ∧ res'.2.1.length = res'.2.2.length := by
    intro res' hres'
    obtain ⟨p, _, hsimp⟩ := starmap_ok_members _ paras results hstar res' hres'
    exact simulate_ok_lengths _ _ _ _ _ hsimp
  have hagg := aggregate_lengths results hmem
  rw [← hout] at hagg
  have h1 : haps.length = gens.length := hagg.1
  have h2 : gens.length = rhos.length := hagg.2
  refine ⟨h1, h2, ?_⟩
  simp only [buildFeatures, List.length_zip, List.length_map, min_self]
  rw [h1, min_self]
  exact h2

/-- Witness for C7 with the trivial run world and an empty grid
(`nsam = 0`): both phases succeed with empty lists. -/
theorem simulate_lockstep_and_feature_rows_witness :
    simulate emptyRunWorld.toSimWorld (build_configuration cArgs0) cArgs0 0 =
      Except.ok (([], [], []) : List ℕ × List ℕ × List ℚ) ∧
    runSimulations emptyRunWorld.toSimWorld (build_configuration cArgs0) cArgs0 =
      Except.ok (([], [], []) : List ℕ × List ℕ × List ℚ) ∧
    (([] : List ℕ).length = ([] : List ℕ).length ∧
      ([] : List ℕ).length = ([] : List ℚ).length) ∧
    (buildFeatures emptyRunWorld [] []).length = ([] : List ℚ).length := by
  have T := simulate_lockstep_and_feature_rows emptyRunWorld
    (build_configuration cArgs0) (build_configuration cArgs0) cArgs0 cArgs0 0
    ([], [], []) [] [] [] rfl rfl
  exact ⟨rfl, rfl, T.1, T.2.2.2⟩

/-- C8 (amended): with a demography file set, `build_configuration` stores a
`demography` entry instead of `population_size`, so every `simulate` call
that performs at least one draw (the external pipeline yields a window and
`ndraw ≥ 1`) raises `KeyError('population_size')` at the scaled-rho
computation; without a demography file the `population_size` key is present. -/
theorem demography_missing_population_size {H G HS GS : Type}
    (w : SimWorld H G HS GS) (a : Args) (d : String) (r : ℚ)
    (hd : a.demography = some d) :
    (build_configuration a).demography = some (load_demography_from_file d) ∧
    (build_configuration a).population_size = none ∧
    (w.windows r ≠ [] → 1 ≤ a.ndraw →
      simulate w (build_configuration a) a r =
        Except.error (PyErr.keyError "population_size")) ∧
    (∀ b : Args, b.demography = none →
      (build_configuration b).population_size = some b.ne) := by
  have hcfg : build_configuration a =
      { sequence_length := 500000, rate := a.mutation_rate, ploidy := a.ploidy,
        demography := some (load_demography_from_file d) } := by
    rw [build_configuration, hd]
  refine ⟨by rw [hcfg], by rw [hcfg], ?_, ?_⟩
  · intro hw hnd
    exact simulate_keyerror w _ a r (by rw [hcfg]) hw hnd
  · intro b hb
    rw [build_configuration, hb]

/-- Witness for C8 with a one-window world, a demography file and
`ndraw = 1`: the call raises `KeyError('population_size')`. -/
theorem demography_missing_population_size_witness :
    cArgsDemDraw.demography = some "demo.csv" ∧
    oneWindowWorld.windows 0 ≠ [] ∧
    (1 : ℤ) ≤ cArgsDemDraw.ndraw ∧
    (build_configuration cArgsDemDraw).population_size = none ∧
    simulate oneWindowWorld (build_configuration cArgsDemDraw) cArgsDemDraw 0 =
      Except.error (PyErr.keyError "population_size") := by
  have T := demography_missing_population_size oneWindowWorld cArgsDemDraw
    "demo.csv" 0 rfl
  refine ⟨rfl, ?_, by decide, T.2.1, T.2.2.1 ?_ (by decide)⟩
  · intro hc
    exact List.noConfusion hc
  · intro hc
    exact List.noConfusion hc

/-- C8 counterexample: with a demography file set but `ndraw = 0`, a
`simulate` call completes normally (no draw is performed, so the scaled-rho
lookup never runs), refuting the claim that with a demography file every
`simulate` call raises `KeyError` and that `simulate` only completes when
run without a demography file. -/
theorem simulate_completes_with_demography_counterexample :
    cArgsDemNoDraw.demography = some "demo.csv" ∧
    (build_configuration cArgsDemNoDraw).population_size = none ∧
    simulate oneWindowWorld (build_configuration cArgsDemNoDraw)
      cArgsDemNoDraw 0 = Except.ok ([], [], []) := ⟨rfl, rfl, rfl⟩

end DeepRho
